import Mathlib

/-!
Shallow embedding of the video production pipeline orchestrator of the
`Aladdin1_Venture_CICD_Solution` repository, together with proofs of the
testable properties stated in its design document.

Conventions of the embedding:
* machine integers of the source are modelled as `Nat` (all quantities
  involved — ids, progress percentages, counters — are non-negative in the
  source and no overflow-sensitive arithmetic occurs);
* Python floats occurring in the analytics formulas are modelled as `ℚ`
  (the claims are about the formulas and their guards, not rounding);
* calls into the external collaborators (AI content provider, rendering
  service, publishing service) are passed in as `Except`-valued arguments:
  `.ok` models a normal return, `.error m` models the call raising an
  exception whose `str(e)` is `m` — mirroring how the orchestrator code
  treats them (a result or a raised exception, caught by a bare
  `except Exception`);
* each `db.commit()` of a task is recorded as one entry of a commit list,
  so that both the final persisted row and every intermediate persisted
  state are visible to the theorems;
* timestamp columns that no claim mentions (`updated_at`, `published_at`)
  are omitted from the record; `created_at` is kept as a `Nat`.
-/

namespace YT

/-- Video lifecycle states, from `models/database.py` (`class VideoStatus`). -/
inductive VideoStatus where
  | draft
  | generating
  | generated
  | uploading
  | uploaded
  | failed
deriving DecidableEq, Repr

/-- The string value of each lifecycle state, from the `str, Enum` values in
`models/database.py` (`DRAFT = "draft"`, ...). -/
def VideoStatus.value : VideoStatus → String
  | .draft => "draft"
  | .generating => "generating"
  | .generated => "generated"
  | .uploading => "uploading"
  | .uploaded => "uploaded"
  | .failed => "failed"

/-- Channel operational states, from `models/database.py` (`class ChannelStatus`). -/
inductive ChannelStatus where
  | active
  | inactive
  | suspended
deriving DecidableEq, Repr

/-- Python truthiness of an optional string column: `None` and `""` are falsy.
Used for the source conditions `if not video.script:` and
`not video.youtube_video_id`. -/
def pyTruthyStr : Option String → Bool
  | none => false
  | some s => !s.isEmpty

/-- The `videos` table row, from `models/database.py` (`class Video`).
Fields no claim touches (`metadata`, `updated_at`, `published_at`) are
omitted; `created_at` is modelled as a `Nat` tick. -/
structure Video where
  id : Nat
  channelId : Nat
  title : String
  description : Option String
  script : Option String
  status : VideoStatus
  generationProgress : Nat
  errorMessage : Option String
  videoPath : Option String
  thumbnailPath : Option String
  duration : Option Nat
  fileSize : Option Nat
  youtubeVideoId : Option String
  createdAt : Nat
deriving DecidableEq, Repr

/-- The `channels` table row, from `models/database.py` (`class Channel`),
restricted to the columns the scheduler campaigns read. -/
structure Channel where
  id : Nat
  niche : String
  status : ChannelStatus
  autoUpload : Bool
  autoGenerate : Bool
deriving DecidableEq, Repr

/-! ### AI provider retry wrapper

From `providers/ai/base.py`: the exception taxonomy declared at the bottom of
the file, and the default `generate_with_retry` loop of the `AIProvider` base
class. The wrapper is polymorphic in the response it forwards (the source
never inspects the `AIResponse` it returns). -/

/-- Exception classes of `providers/ai/base.py`: `AIProviderAuthError`,
`AIProviderRateLimitError`, `AIProviderTimeoutError`,
`AIProviderInvalidRequestError`, and the base `AIProviderError`. -/
inductive ProviderError where
  | authError (msg : String)
  | rateLimitError (msg : String)
  | timeoutError (msg : String)
  | invalidRequestError (msg : String)
  | providerError (msg : String)
deriving DecidableEq, Repr

/-- Observable behaviour of one `generate_with_retry` run: the value it
returns or raises, the backoff sleeps performed (in seconds, in order), and
the attempt indices at which `generate_text` was called. `result = .error
none` models the source reaching `raise last_error` with `last_error` still
`None` (Python `raise None`, a `TypeError`, not a provider error). -/
structure RetryRun (α : Type) where
  result : Except (Option ProviderError) α
  sleeps : List Nat
  calls : List Nat
deriving Repr

/-- Loop body of `generate_with_retry` (`providers/ai/base.py`, lines
217-229): `for attempt in range(max_retries)`, try the call; on any
exception remember it as `last_error` and, when `attempt < max_retries - 1`,
sleep `2 ** attempt` seconds; after the loop, `raise last_error`.
`call k` is the outcome of `self.generate_text` on attempt `k`. -/
def generate_with_retry_go {α : Type} (call : Nat → Except ProviderError α)
    (max_retries attempt : Nat) (last_error : Option ProviderError) : RetryRun α :=
  if _h : attempt < max_retries then
    match call attempt with
    | .ok r => { result := .ok r, sleeps := [], calls := [attempt] }
    | .error e =>
      let rest := generate_with_retry_go call max_retries (attempt + 1) (some e)
      if attempt < max_retries - 1 then
        { result := rest.result, sleeps := 2 ^ attempt :: rest.sleeps,
          calls := attempt :: rest.calls }
      else
        { result := rest.result, sleeps := rest.sleeps, calls := attempt :: rest.calls }
  else
    { result := .error last_error, sleeps := [], calls := [] }
termination_by max_retries - attempt

/-- The public retry entry point `AIProvider.generate_with_retry`
(`providers/ai/base.py`): starts the loop at attempt 0 with
`last_error = None`. A non-positive `max_retries` gives an empty Python
`range`, which the `Nat` argument models as `0`. -/
def generate_with_retry {α : Type} (call : Nat → Except ProviderError α)
    (max_retries : Nat) : RetryRun α :=
  generate_with_retry_go call max_retries 0 none

/-! ### The `requestGeneration` entry point

From `api/v1/videos.py`, `generate_video` (POST `/{video_id}/generate`),
after the not-found check: the GENERATING branch answers idempotently with
the row untouched; every other state is moved to GENERATING with progress
reset to 0 (the branch whose stub response reports the generation job as
queued). -/

/-- Response shape of the progress endpoints (`VideoProgressResponse`). -/
structure VideoProgressResponse where
  videoId : Nat
  status : String
  progress : Nat
  message : String
deriving DecidableEq, Repr

/-- The body of `generate_video` in `api/v1/videos.py` (lines 295-317) for a
video the ownership check found. Returns the persisted row after the call,
the response, and whether the call started generation work (took the branch
that transitions the row to GENERATING and reports the job queued — the
source's Celery dispatch marked TODO). -/
def generate_video_endpoint (v : Video) : Video × VideoProgressResponse × Bool :=
  if v.status = VideoStatus.generating then
    (v, { videoId := v.id, status := v.status.value,
          progress := v.generationProgress,
          message := "Video generation in progress" }, false)
  else
    let v1 : Video := { v with status := VideoStatus.generating, generationProgress := 0 }
    (v1, { videoId := v1.id, status := v1.status.value, progress := 0,
           message := "Video generation queued (STUB - Celery task not implemented yet)" },
     true)

/-! ### The rendering collaborator

From `services/video.py`, `VideoBuilderService.generate_video` (a stub of
the Rendering Service contract): it reports the fixed progress steps below
through the progress callback and then returns the produced artifact data;
a failing render raises after reporting some initial segment of the steps. -/

/-- The progress steps reported by the renderer
(`services/video.py`, lines 58-66). -/
def stubSteps : List (Nat × String) :=
  [(10, "Initializing video generation..."),
   (20, "Generating audio from script..."),
   (40, "Creating video frames..."),
   (60, "Adding background music..."),
   (80, "Rendering final video..."),
   (90, "Generating thumbnail..."),
   (100, "Video generation complete!")]

/-- Successful result of the rendering collaborator: the fields of the dict
returned by `VideoBuilderService.generate_video` that the orchestrator
persists (`video_path`, `thumbnail_path`, `duration`, `file_size`). -/
structure RenderResult where
  videoPath : String
  thumbnailPath : String
  duration : Nat
  fileSize : Nat
deriving DecidableEq, Repr

/-! ### The generation task

From `tasks/video_tasks.py`, `generate_video_task` (lines 38-124).
The collaborator outcomes are arguments: `genScript` is the outcome of
`content_service.generate_script` (returning the `"script"` entry),
`ev` is the list of `(progress, message)` pairs the renderer pushed through
`update_progress` before finishing, and `oc` is the renderer's outcome.
The first component of the result lists the video row at each
`db.commit()`, in order; the second is the returned dict. -/

/-- Structured results returned by `generate_video_task`: the success dict
carrying `video_id`, `video_path` and `duration`, or the error dict carrying
the message (its `video_id` entry is absent in the not-found return). -/
inductive GenTaskResult where
  | success (videoId : Nat) (videoPath : String) (duration : Nat)
  | error (videoId : Option Nat) (message : String)
deriving DecidableEq, Repr

/-- The source condition `if not video.script:` (line 71): generate a script
only when the column is `NULL` or empty. -/
def scriptMissing (v : Video) : Bool :=
  !pyTruthyStr v.script

/-- The rendering phase of `generate_video_task` (lines 82-99 plus the
`except` branch): each progress callback commits the row with the reported
percentage; a successful render commits the artifact fields together with
`status = GENERATED, generation_progress = 100`; a raising render is caught
by the task's `except Exception` branch, which commits
`status = FAILED, error_message = str(e)` and returns the error dict. -/
def renderPhase (u : Video) (ev : List (Nat × String))
    (oc : Except String RenderResult) : List Video × GenTaskResult :=
  let eventCommits := ev.map (fun p => { u with generationProgress := p.1 })
  let uLast : Video :=
    match ev.getLast? with
    | none => u
    | some p => { u with generationProgress := p.1 }
  match oc with
  | .ok r =>
    let done : Video :=
      { uLast with videoPath := some r.videoPath, thumbnailPath := some r.thumbnailPath,
                   duration := some r.duration, fileSize := some r.fileSize,
                   status := VideoStatus.generated, generationProgress := 100 }
    (eventCommits ++ [done], GenTaskResult.success u.id r.videoPath r.duration)
  | .error e =>
    let failedRow : Video :=
      { uLast with status := VideoStatus.failed, errorMessage := some e }
    (eventCommits ++ [failedRow], GenTaskResult.error (some u.id) e)

/-- `generate_video_task` of `tasks/video_tasks.py`: load the row (`none`
models the not-found query), commit `status = GENERATING,
generation_progress = 0`, generate and commit the script when the column is
falsy (a raising script generation is caught by the task's
`except Exception` branch, which commits FAILED with the message and
returns the error dict), then run the rendering phase. -/
def generate_video_task (video? : Option Video) (genScript : Except String String)
    (ev : List (Nat × String)) (oc : Except String RenderResult) :
    List Video × GenTaskResult :=
  match video? with
  | none => ([], GenTaskResult.error none "Video not found")
  | some v =>
    let v1 : Video := { v with status := VideoStatus.generating, generationProgress := 0 }
    if scriptMissing v1 then
      match genScript with
      | .error e =>
        ([v1, { v1 with status := VideoStatus.failed, errorMessage := some e }],
         GenTaskResult.error (some v.id) e)
      | .ok s =>
        let v2 : Video := { v1 with script := some s }
        let r := renderPhase v2 ev oc
        (v1 :: v2 :: r.1, r.2)
    else
      let r := renderPhase v1 ev oc
      (v1 :: r.1, r.2)

/-! ### The upload task

From `tasks/video_tasks.py`, `upload_video_task` (lines 127-204), with the
publishing collaborator outcome (`uploader_service.upload_video`) as an
argument. -/

/-- Successful result of the publishing collaborator: the entries of the
dict returned by `YouTubeUploaderService.upload_video` that the task reads
(`youtube_video_id`, `url`). -/
structure UploadResult where
  youtubeVideoId : String
  url : String
deriving DecidableEq, Repr

/-- Structured results returned by `upload_video_task`: the success dict or
the error dict (`video_id` absent in the not-found and wrong-status
returns). -/
inductive UploadTaskResult where
  | success (videoId : Nat) (youtubeVideoId : String) (url : String)
  | error (videoId : Option Nat) (message : String)
deriving DecidableEq, Repr

/-- `upload_video_task` of `tasks/video_tasks.py`: load the row; a row whose
status differs from GENERATED returns the error dict with no commit; else
commit `status = UPLOADING`, call the publisher, and commit either the
UPLOADED row with the external id or (in the `except Exception` branch) the
FAILED row with the message. -/
def upload_video_task (video? : Option Video) (pub : Except String UploadResult) :
    List Video × UploadTaskResult :=
  match video? with
  | none => ([], UploadTaskResult.error none "Video not found")
  | some v =>
    if v.status ≠ VideoStatus.generated then
      ([], UploadTaskResult.error none "Video must be generated before uploading")
    else
      let v1 : Video := { v with status := VideoStatus.uploading }
      match pub with
      | .ok r =>
        ([v1, { v1 with youtubeVideoId := some r.youtubeVideoId,
                        status := VideoStatus.uploaded }],
         UploadTaskResult.success v.id r.youtubeVideoId r.url)
      | .error e =>
        ([v1, { v1 with status := VideoStatus.failed, errorMessage := some e }],
         UploadTaskResult.error (some v.id) e)

/-! ### The publishing collaborator's metrics and the analytics synchronizer

From `services/upload.py`, `YouTubeUploaderService.get_video_analytics`
(the metrics fetch of the Publishing Service contract) and from
`tasks/analytics_tasks.py`, `sync_video_analytics`. The stub fetch draws
`views`, `likes`, `comments` and the remaining quantities randomly; the
draws are arguments here, while the engagement rate is computed by the
source formula. Python float arithmetic is modelled over `ℚ`. -/

/-- The engagement-rate formula of `services/upload.py`, line 194:
`(likes + comments) / views if views > 0 else 0`. Total by construction —
the `views = 0` branch never divides. -/
def computeEngagementRate (likes comments views : Nat) : ℚ :=
  if 0 < views then ((likes : ℚ) + (comments : ℚ)) / (views : ℚ) else 0

/-- The entries of the dict returned by `get_video_analytics` that
`sync_video_analytics` reads and persists. -/
structure AnalyticsData where
  views : Nat
  likes : Nat
  dislikes : Nat
  comments : Nat
  shares : Nat
  watchTime : Nat
  averageViewDuration : ℚ
  clickThroughRate : ℚ
  engagementRate : ℚ
  revenue : ℚ
deriving DecidableEq, Repr

/-- `YouTubeUploaderService.get_video_analytics` (`services/upload.py`,
lines 179-198) with the random draws as arguments: every field is passed
through except `engagement_rate`, which it computes from `likes`,
`comments` and `views` by the guarded formula. -/
def get_video_analytics (views likes dislikes comments shares watchTime : Nat)
    (averageViewDuration clickThroughRate revenue : ℚ) : AnalyticsData :=
  { views := views, likes := likes, dislikes := dislikes, comments := comments,
    shares := shares, watchTime := watchTime,
    averageViewDuration := averageViewDuration,
    clickThroughRate := clickThroughRate,
    engagementRate := computeEngagementRate likes comments views,
    revenue := revenue }

/-- The `video_analytics` table row, from `models/database.py`
(`class VideoAnalytics`), with `last_updated` as a `Nat` tick. -/
structure VideoAnalytics where
  videoId : Nat
  views : Nat
  likes : Nat
  dislikes : Nat
  comments : Nat
  shares : Nat
  watchTime : Nat
  averageViewDuration : ℚ
  clickThroughRate : ℚ
  engagementRate : ℚ
  revenue : ℚ
  lastUpdated : Nat
deriving DecidableEq, Repr

/-- A fresh `VideoAnalytics(video_id=video_id)` row with the column
defaults of `models/database.py` (counters 0, rates 0.0). -/
def newVideoAnalytics (videoId : Nat) : VideoAnalytics :=
  { videoId := videoId, views := 0, likes := 0, dislikes := 0, comments := 0,
    shares := 0, watchTime := 0, averageViewDuration := 0, clickThroughRate := 0,
    engagementRate := 0, revenue := 0, lastUpdated := 0 }

/-- Results returned by `sync_video_analytics`: success with `video_id`,
`views` and `engagement_rate`; the skipped dict; or the error dict
(`video_id` absent in the not-found return). -/
inductive SyncResult where
  | success (videoId : Nat) (views : Nat) (engagementRate : ℚ)
  | skipped (message : String)
  | error (videoId : Option Nat) (message : String)
deriving DecidableEq, Repr

/-- `sync_video_analytics` of `tasks/analytics_tasks.py` (lines 36-101):
load the row; skip unless `status == UPLOADED` and `youtube_video_id` is
truthy; fetch the metrics (`fetch` is the collaborator outcome — `.error`
models the fetch raising, caught by the task's `except Exception` branch,
which returns the error dict without touching the session); on a fetched
dict, take the existing analytics row or a fresh one, overwrite every
metric column, stamp `last_updated = now`, and commit. The first component
is the persisted analytics row after the run (`existing` when nothing was
committed). -/
def sync_video_analytics (video? : Option Video) (fetch : Except String AnalyticsData)
    (existing : Option VideoAnalytics) (now : Nat) :
    Option VideoAnalytics × SyncResult :=
  match video? with
  | none => (existing, SyncResult.error none "Video not found")
  | some v =>
    if v.status ≠ VideoStatus.uploaded ∨ pyTruthyStr v.youtubeVideoId = false then
      (existing, SyncResult.skipped "Video not uploaded")
    else
      match fetch with
      | .error e => (existing, SyncResult.error (some v.id) e)
      | .ok d =>
        let base := existing.getD (newVideoAnalytics v.id)
        let updated : VideoAnalytics :=
          { base with views := d.views, likes := d.likes, dislikes := d.dislikes,
                      comments := d.comments, shares := d.shares,
                      watchTime := d.watchTime,
                      averageViewDuration := d.averageViewDuration,
                      clickThroughRate := d.clickThroughRate,
                      engagementRate := d.engagementRate, revenue := d.revenue,
                      lastUpdated := now }
        (some updated, SyncResult.success v.id d.views d.engagementRate)

/-! ### The auto-upload campaign

From `tasks/video_tasks.py`, `auto_upload_videos` (lines 279-327). The
database reads are modelled by the two row lists: the channel query filters
`auto_upload == True` and `status == ACTIVE`; the per-channel video query
filters `channel_id` and `status == GENERATED` and takes `.limit(1)` —
the source query has no `order_by`, so the rows arrive in the
backend-dependent order of the `videos` list. -/

/-- Batch result of `auto_upload_videos`: `channels_processed` and
`videos_queued`. -/
structure AutoUploadResult where
  channelsProcessed : Nat
  videosQueued : Nat
deriving DecidableEq, Repr

/-- The per-channel video selection of `auto_upload_videos` (lines
299-302): the GENERATED videos of the channel, one at a time
(`.limit(1).all()`). -/
def autoUploadSelect (videos : List Video) (c : Channel) : List Video :=
  (videos.filter (fun v => v.channelId == c.id && v.status == VideoStatus.generated)).take 1

/-- `auto_upload_videos` of `tasks/video_tasks.py`: for every ACTIVE
channel with `auto_upload`, enqueue `upload_video_task.delay(video.id)` for
each selected video. The first component lists the video rows whose ids
were enqueued, in dispatch order. -/
def auto_upload_videos (channels : List Channel) (videos : List Video) :
    List Video × AutoUploadResult :=
  let cs := channels.filter (fun c => c.autoUpload && c.status == ChannelStatus.active)
  let sel := cs.flatMap (autoUploadSelect videos)
  (sel, { channelsProcessed := cs.length, videosQueued := sel.length })

/-! ### Persisted states reachable through the pipeline

The claims about "every video at every point of the pipeline" quantify over
the video rows the orchestrator can persist. `Reachable` closes the freshly
created rows (status DRAFT, progress 0, as created by the video-creation
endpoint and the auto-generate campaign) under the pipeline operations: the
`requestGeneration` endpoint, the generation task (with any collaborator
outcomes, the progress events being an initial segment of the renderer's
reported steps), and the upload task. Every intermediate commit of a task
counts as a point of the pipeline. -/

inductive Reachable : Video → Prop where
  | created (v : Video) (hs : v.status = VideoStatus.draft)
      (hp : v.generationProgress = 0) : Reachable v
  | api (v : Video) (h : Reachable v) : Reachable (generate_video_endpoint v).1
  | gen (v v' : Video) (genScript : Except String String)
      (ev : List (Nat × String)) (oc : Except String RenderResult)
      (h : Reachable v) (hev : ∃ k, ev = stubSteps.take k)
      (hm : v' ∈ (generate_video_task (some v) genScript ev oc).1) : Reachable v'
  | upload (v v' : Video) (pub : Except String UploadResult)
      (h : Reachable v) (hm : v' ∈ (upload_video_task (some v) pub).1) : Reachable v'

/-! ### Sample rows used by witnesses and counterexamples -/

/-- A DRAFT row with a non-empty script column. -/
def sampleDraft : Video :=
  { id := 1, channelId := 1, title := "Title", description := some "Desc",
    script := some "script text", status := VideoStatus.draft, generationProgress := 0,
    errorMessage := none, videoPath := none, thumbnailPath := none, duration := none,
    fileSize := none, youtubeVideoId := none, createdAt := 1 }

/-- A row mid-generation, progress 42. -/
def sampleGenerating : Video :=
  { sampleDraft with status := VideoStatus.generating, generationProgress := 42 }

/-- A fully generated row. -/
def sampleGenerated : Video :=
  { sampleDraft with
    status := VideoStatus.generated,
    generationProgress := 100,
    videoPath := some "/app/storage/videos/video_1.mp4",
    thumbnailPath := some "/app/storage/thumbnails/thumb_1.jpg",
    duration := some 300,
    fileSize := some 1024 }

/-- An uploaded row carrying an external id. -/
def sampleUploaded : Video :=
  { sampleGenerated with
    status := VideoStatus.uploaded,
    youtubeVideoId := some "STUB_123456" }

/-! ### Claims -/

/-- C1: for every video whose status is GENERATING, the `requestGeneration`
entry point (`generate_video` in `api/v1/videos.py`) returns the video's
current status and generation progress unchanged: the persisted row is
exactly the input row (no progress reset), the response reports the current
status string and progress, and no generation job is started. -/
theorem C1_generating_is_idempotent (v : Video)
    (h : v.status = VideoStatus.generating) :
    generate_video_endpoint v =
      (v, { videoId := v.id, status := "generating",
            progress := v.generationProgress,
            message := "Video generation in progress" }, false) := by
  simp [generate_video_endpoint, h, VideoStatus.value]

/-- Witness for C1 at a concrete GENERATING row with progress 42. -/
theorem C1_generating_is_idempotent_witness :
    sampleGenerating.status = VideoStatus.generating ∧
    generate_video_endpoint sampleGenerating =
      (sampleGenerating,
       { videoId := 1, status := "generating", progress := 42,
         message := "Video generation in progress" }, false) :=
  ⟨rfl, C1_generating_is_idempotent sampleGenerating rfl⟩

/-- C2: `upload_video_task` on a video whose status is not GENERATED
returns the precondition-failure result and performs no commit (the
persisted row stays as loaded); on a GENERATED video it proceeds, its first
commit setting the status to UPLOADING. -/
theorem C2_upload_requires_generated (v : Video) (pub : Except String UploadResult) :
    (v.status ≠ VideoStatus.generated →
      upload_video_task (some v) pub =
        ([], UploadTaskResult.error none "Video must be generated before uploading")) ∧
    (v.status = VideoStatus.generated →
      (upload_video_task (some v) pub).1.head? =
        some { v with status := VideoStatus.uploading }) := by
  constructor
  · intro h
    simp [upload_video_task, h]
  · intro h
    cases pub <;> simp [upload_video_task, h]

/-- Witness for C2: a GENERATING row is rejected with no commit; a
GENERATED row is moved to UPLOADING by the first commit. -/
theorem C2_upload_requires_generated_witness :
    upload_video_task (some sampleGenerating) (Except.error "boom") =
      ([], UploadTaskResult.error none "Video must be generated before uploading") ∧
    (upload_video_task (some sampleGenerated) (Except.error "boom")).1.head? =
      some { sampleGenerated with status := VideoStatus.uploading } :=
  ⟨(C2_upload_requires_generated sampleGenerating (Except.error "boom")).1 (by decide),
   (C2_upload_requires_generated sampleGenerated (Except.error "boom")).2 rfl⟩

/-- C9: calling `generate_with_retry` with `max_retries = 0` (a
non-positive budget gives the same empty Python `range`) performs no
provider call at all (`calls = []`), sleeps never, and exits by raising
`last_error`, which is still `None` — modelled as `Except.error none`, not
a provider error. The result does not depend on the provider call. -/
theorem C9_zero_budget_raises_none {α : Type} (call : Nat → Except ProviderError α) :
    generate_with_retry call 0 =
      { result := Except.error none, sleeps := [], calls := [] } := by
  rw [generate_with_retry, generate_with_retry_go]
  simp

/-- C10: if the metrics fetch raises, `sync_video_analytics` commits
nothing: the persisted analytics row after the run is exactly the row that
existed before (no row is created for a video that had none, and an
existing row keeps all its fields), and — when the video was eligible for a
fetch — the task returns only the structured error result. -/
theorem C10_sync_fetch_failure_commits_nothing (v : Video) (e : String)
    (existing : Option VideoAnalytics) (now : Nat) :
    (sync_video_analytics (some v) (Except.error e) existing now).1 = existing ∧
    (v.status = VideoStatus.uploaded → pyTruthyStr v.youtubeVideoId = true →
      sync_video_analytics (some v) (Except.error e) existing now =
        (existing, SyncResult.error (some v.id) e)) := by
  constructor
  · by_cases h : v.status ≠ VideoStatus.uploaded ∨ pyTruthyStr v.youtubeVideoId = false
    · simp [sync_video_analytics, h]
    · simp [sync_video_analytics, h]
  · intro h1 h2
    have hcond : ¬(v.status ≠ VideoStatus.uploaded ∨ pyTruthyStr v.youtubeVideoId = false) := by
      simp [h1, h2]
    simp [sync_video_analytics, hcond]

/-- Witness for C10 at an uploaded row with no pre-existing analytics:
the fetch raising leaves the analytics store empty. -/
theorem C10_sync_fetch_failure_commits_nothing_witness :
    (sync_video_analytics (some sampleUploaded) (Except.error "API timeout") none 9).1 = none ∧
    (sampleUploaded.status = VideoStatus.uploaded →
      pyTruthyStr sampleUploaded.youtubeVideoId = true →
      sync_video_analytics (some sampleUploaded) (Except.error "API timeout") none 9 =
        (none, SyncResult.error (some 1) "API timeout")) :=
  C10_sync_fetch_failure_commits_nothing sampleUploaded "API timeout" none 9

/-- On an eligible video and a fetch that returns a metrics dict, the sync
overwrites every metric column of the existing (or fresh) analytics row and
returns the success result — the committed row spelled out. -/
theorem sync_video_analytics_ok (v : Video) (d : AnalyticsData)
    (existing : Option VideoAnalytics) (now : Nat)
    (hs : v.status = VideoStatus.uploaded) (hid : pyTruthyStr v.youtubeVideoId = true) :
    sync_video_analytics (some v) (Except.ok d) existing now =
      (some { existing.getD (newVideoAnalytics v.id) with
         views := d.views, likes := d.likes, dislikes := d.dislikes,
         comments := d.comments, shares := d.shares, watchTime := d.watchTime,
         averageViewDuration := d.averageViewDuration,
         clickThroughRate := d.clickThroughRate,
         engagementRate := d.engagementRate, revenue := d.revenue,
         lastUpdated := now },
       SyncResult.success v.id d.views d.engagementRate) := by
  have hcond : ¬(v.status ≠ VideoStatus.uploaded ∨ pyTruthyStr v.youtubeVideoId = false) := by
    simp [hs, hid]
  simp [sync_video_analytics, hcond]

/-- C7: for every metrics fetch, the engagement rate persisted by the sync
equals `(likes + comments) / views` when `views > 0` and `0` when
`views = 0`; the computation is a total function (the `views = 0` branch
returns 0, it never divides). -/
theorem C7_engagement_rate_guarded (v : Video)
    (hs : v.status = VideoStatus.uploaded) (hid : pyTruthyStr v.youtubeVideoId = true)
    (views likes dislikes comments shares watchTime : Nat)
    (avd ctr revenue : ℚ) (existing : Option VideoAnalytics) (now : Nat) :
    ∃ rec0 : VideoAnalytics,
      (sync_video_analytics (some v)
          (Except.ok (get_video_analytics views likes dislikes comments shares watchTime
            avd ctr revenue)) existing now).1 = some rec0 ∧
      rec0.engagementRate =
        (if 0 < views then ((likes : ℚ) + (comments : ℚ)) / (views : ℚ) else 0) ∧
      (views = 0 → rec0.engagementRate = 0) := by
  rw [sync_video_analytics_ok v _ existing now hs hid]
  refine ⟨_, rfl, ?_, ?_⟩
  · simp [get_video_analytics, computeEngagementRate]
  · intro h0
    simp [get_video_analytics, computeEngagementRate, h0]

/-- Witness for C7 at `views = 0` (Scenario D): the stored engagement rate
is 0, with no division performed. -/
theorem C7_engagement_rate_guarded_witness :
    ∃ rec0 : VideoAnalytics,
      (sync_video_analytics (some sampleUploaded)
          (Except.ok (get_video_analytics 0 3 1 2 0 0 1 1 1)) none 9).1 = some rec0 ∧
      rec0.engagementRate = (if 0 < 0 then ((3 : ℚ) + (2 : ℚ)) / (0 : ℚ) else 0) ∧
      (0 = 0 → rec0.engagementRate = 0) :=
  C7_engagement_rate_guarded sampleUploaded rfl (by decide) 0 3 1 2 0 0 1 1 1 none 9

/-- C8 counterexample: the claim says `requestGeneration` starts generation
only from DRAFT or FAILED, but `generate_video` in `api/v1/videos.py` only
guards the GENERATING case: invoked on a GENERATED row it moves the row
back to GENERATING, resets its progress to 0, and starts generation work. -/
theorem C8_counterexample :
    sampleGenerated.status = VideoStatus.generated ∧
    (generate_video_endpoint sampleGenerated).1.status = VideoStatus.generating ∧
    (generate_video_endpoint sampleGenerated).1.generationProgress = 0 ∧
    (generate_video_endpoint sampleGenerated).2.2 = true :=
  ⟨rfl, rfl, rfl, rfl⟩

/-- C8 amended: the endpoint refuses to restart only the GENERATING case;
from every other state — DRAFT and FAILED, but also GENERATED, UPLOADING
and UPLOADED — it sets the row to GENERATING with progress 0 and starts
generation work. -/
theorem C8_only_generating_guarded (v : Video)
    (h : v.status ≠ VideoStatus.generating) :
    generate_video_endpoint v =
      ({ v with status := VideoStatus.generating, generationProgress := 0 },
       { videoId := v.id, status := "generating", progress := 0,
         message := "Video generation queued (STUB - Celery task not implemented yet)" },
       true) := by
  simp [generate_video_endpoint, h, VideoStatus.value]

/-- Witness for the amended C8 at a concrete UPLOADED row. -/
theorem C8_only_generating_guarded_witness :
    generate_video_endpoint sampleUploaded =
      ({ sampleUploaded with status := VideoStatus.generating, generationProgress := 0 },
       { videoId := 1, status := "generating", progress := 0,
         message := "Video generation queued (STUB - Celery task not implemented yet)" },
       true) :=
  C8_only_generating_guarded sampleUploaded (by decide)

/-- Behaviour of the retry loop on a call that raises the same error at
every attempt: starting at any attempt index still inside the budget, the
loop calls once per remaining attempt, sleeps `2 ^ k` seconds after every
attempt `k` but the last, and finally re-raises the error — whatever the
error class is. -/
theorem generate_with_retry_go_const_error {α : Type} (e : ProviderError) :
    ∀ (n max_retries attempt : Nat) (last_error : Option ProviderError),
      max_retries - attempt = n → attempt < max_retries →
      generate_with_retry_go (fun _ => (Except.error e : Except ProviderError α))
          max_retries attempt last_error =
        { result := Except.error (some e),
          sleeps := (List.range' attempt (max_retries - 1 - attempt)).map (fun k => 2 ^ k),
          calls := List.range' attempt (max_retries - attempt) } := by
  intro n
  induction n with
  | zero =>
    intro m a le hn ha
    omega
  | succ n ih =>
    intro m a le hn ha
    rw [generate_with_retry_go]
    simp only [dif_pos ha]
    by_cases hlt : a < m - 1
    · rw [if_pos hlt]
      rw [ih m (a + 1) (some e) (by omega) (by omega)]
      have h1 : m - 1 - a = (m - 1 - (a + 1)) + 1 := by omega
      have h2 : m - a = (m - (a + 1)) + 1 := by omega
      rw [h1, h2, List.range'_succ, List.range'_succ]
      rfl
    · rw [if_neg hlt]
      have hbase : generate_with_retry_go (fun _ => (Except.error e : Except ProviderError α))
          m (a + 1) (some e) =
          { result := Except.error (some e), sleeps := [], calls := [] } := by
        rw [generate_with_retry_go]
        simp only [dif_neg (show ¬(a + 1 < m) by omega)]
      rw [hbase]
      have h1 : m - 1 - a = 0 := by omega
      have h2 : m - a = 1 := by omega
      rw [h1, h2]
      rfl

/-- C4 counterexample: the claim says authentication failures are
propagated immediately without retry, but the loop of `generate_with_retry`
catches every `Exception`: on a call that raises `AIProviderAuthError` at
every attempt, a budget of 3 performs three provider calls (attempts 0, 1
and 2) with backoff sleeps of 1 s and 2 s in between, and only then
re-raises the authentication error. -/
theorem C4_counterexample :
    generate_with_retry
        (fun _ => (Except.error (ProviderError.authError "OpenAI authentication failed")
          : Except ProviderError Unit)) 3 =
      { result := Except.error (some (ProviderError.authError "OpenAI authentication failed")),
        sleeps := [1, 2],
        calls := [0, 1, 2] } := by
  have h := generate_with_retry_go_const_error (α := Unit)
    (ProviderError.authError "OpenAI authentication failed") 3 3 0 none rfl (by omega)
  rw [generate_with_retry, h]
  rfl

/-- C4 amended: `generate_with_retry` applies exponential backoff
(`2 ^ attempt` seconds between consecutive attempts) up to the
caller-specified `max_retries` budget, but it retries on EVERY exception
uniformly — transient or not: a call failing persistently with any error
class (authentication and malformed-request failures included) is attempted
`max_retries` times, with sleeps `2 ^ 0, ..., 2 ^ (max_retries - 2)`, and
only then is the last error re-raised. -/
theorem C4_retries_every_error_class {α : Type} (e : ProviderError) (m : Nat)
    (hm : 0 < m) :
    generate_with_retry (fun _ => (Except.error e : Except ProviderError α)) m =
      { result := Except.error (some e),
        sleeps := (List.range (m - 1)).map (fun k => 2 ^ k),
        calls := List.range m } := by
  rw [generate_with_retry,
    generate_with_retry_go_const_error (α := α) e m m 0 none (by omega) hm,
    List.range_eq_range', List.range_eq_range']
  rfl

/-- Witness for the amended C4: a persistently rate-limited call with a
budget of 4 is attempted four times with sleeps 1 s, 2 s, 4 s. -/
theorem C4_retries_every_error_class_witness :
    0 < 4 ∧
    generate_with_retry
        (fun _ => (Except.error (ProviderError.rateLimitError "OpenAI rate limit exceeded")
          : Except ProviderError Unit)) 4 =
      { result := Except.error (some (ProviderError.rateLimitError "OpenAI rate limit exceeded")),
        sleeps := [1, 2, 4],
        calls := [0, 1, 2, 3] } :=
  ⟨by omega,
   C4_retries_every_error_class (α := Unit)
     (ProviderError.rateLimitError "OpenAI rate limit exceeded") 4 (by omega)⟩

/-- Every video the per-channel selection of the auto-upload campaign picks
belongs to that channel. -/
theorem autoUploadSelect_channelId (videos : List Video) (c : Channel) (v : Video)
    (hv : v ∈ autoUploadSelect videos c) : v.channelId = c.id := by
  have hv' := List.take_subset 1 _ hv
  have hp := List.mem_filter.mp hv'
  have := hp.2
  simp only [Bool.and_eq_true, beq_iff_eq] at this
  exact this.1

/-- The per-channel selection enqueues exactly one video when the channel
has a GENERATED video and none otherwise. -/
theorem autoUploadSelect_length (videos : List Video) (c : Channel) :
    (autoUploadSelect videos c).length =
      if videos.any (fun v => v.channelId == c.id && v.status == VideoStatus.generated)
      then 1 else 0 := by
  unfold autoUploadSelect
  rw [List.length_take]
  by_cases h : videos.any (fun v => v.channelId == c.id && v.status == VideoStatus.generated)
  · rw [if_pos h]
    rcases List.any_eq_true.mp h with ⟨v, hv, hp⟩
    have hmem : v ∈ videos.filter
        (fun v => v.channelId == c.id && v.status == VideoStatus.generated) :=
      List.mem_filter.mpr ⟨hv, hp⟩
    have hpos : 0 < (videos.filter
        (fun v => v.channelId == c.id && v.status == VideoStatus.generated)).length :=
      List.length_pos.mpr (List.ne_nil_of_mem hmem)
    omega
  · rw [if_neg h]
    have hnil : videos.filter
        (fun v => v.channelId == c.id && v.status == VideoStatus.generated) = [] :=
      List.filter_eq_nil_iff.mpr (by
        intro a ha hpa
        exact h (List.any_eq_true.mpr ⟨a, ha, hpa⟩))
    rw [hnil]
    rfl

/-- Per-channel count of jobs dispatched by one auto-upload run over a
channel worklist with pairwise distinct ids: the channel `c` contributes
its own selection and no other channel contributes a video of `c`. -/
theorem auto_upload_dispatch_count (videos : List Video) (c : Channel) :
    ∀ cs : List Channel, (cs.map Channel.id).Nodup → c ∈ cs →
      ((cs.flatMap (autoUploadSelect videos)).filter
          (fun v => v.channelId == c.id)).length =
        if videos.any (fun v => v.channelId == c.id && v.status == VideoStatus.generated)
        then 1 else 0 := by
  intro cs
  induction cs with
  | nil =>
    intro _ hc
    cases hc
  | cons c' cs' ih =>
    intro hnd hc
    rw [List.flatMap_cons, List.filter_append, List.length_append]
    rw [List.map_cons, List.nodup_cons] at hnd
    obtain ⟨hnotin, hnd'⟩ := hnd
    rcases List.mem_cons.mp hc with heq | hmem
    · subst heq
      have hall : ∀ v ∈ autoUploadSelect videos c, (v.channelId == c.id) = true := by
        intro v hv
        rw [beq_iff_eq]
        exact autoUploadSelect_channelId videos c v hv
      rw [List.filter_eq_self.mpr hall]
      have htail : (cs'.flatMap (autoUploadSelect videos)).filter
          (fun v => v.channelId == c.id) = [] := by
        rw [List.filter_eq_nil_iff]
        intro v hv
        rcases List.mem_flatMap.mp hv with ⟨c'', hc'', hvsel⟩
        have hvc := autoUploadSelect_channelId videos c'' v hvsel
        have hne : c''.id ≠ c.id := by
          intro h
          exact hnotin (h ▸ List.mem_map_of_mem Channel.id hc'')
        simp [hvc, hne]
      rw [htail]
      simp [autoUploadSelect_length]
    · have hcid : c'.id ≠ c.id := by
        intro h
        exact hnotin (h ▸ List.mem_map_of_mem Channel.id hmem)
      have hhead : (autoUploadSelect videos c').filter
          (fun v => v.channelId == c.id) = [] := by
        rw [List.filter_eq_nil_iff]
        intro v hv
        have := autoUploadSelect_channelId videos c' v hv
        simp [this, hcid]
      rw [hhead]
      simp [ih hnd' hmem]

/-- C6 amended: in one auto-upload run over channels with pairwise distinct
ids, every ACTIVE channel with `auto_upload` gets exactly one upload job
enqueued when it has at least one GENERATED video and none otherwise — but
the video selected is the first row of the unordered `.limit(1)` query, not
necessarily the oldest (the source query has no ordering clause). -/
theorem C6_one_job_per_channel (channels : List Channel) (videos : List Video)
    (c : Channel) (hnd : (channels.map Channel.id).Nodup) (hc : c ∈ channels)
    (hact : c.status = ChannelStatus.active) (hau : c.autoUpload = true) :
    ((auto_upload_videos channels videos).1.filter
        (fun v => v.channelId == c.id)).length =
      if videos.any (fun v => v.channelId == c.id && v.status == VideoStatus.generated)
      then 1 else 0 := by
  have hc' : c ∈ channels.filter
      (fun c => c.autoUpload && c.status == ChannelStatus.active) :=
    List.mem_filter.mpr ⟨hc, by simp [hau, hact]⟩
  have hnd' : ((channels.filter
      (fun c => c.autoUpload && c.status == ChannelStatus.active)).map Channel.id).Nodup :=
    ((List.filter_sublist channels).map Channel.id).nodup hnd
  exact auto_upload_dispatch_count videos c _ hnd' hc'

/-- The auto-upload channel of the C6 scenarios. -/
def chAuto : Channel :=
  { id := 1, niche := "tech", status := ChannelStatus.active,
    autoUpload := true, autoGenerate := false }

/-- The newer GENERATED video of channel 1. -/
def vNewer : Video :=
  { sampleGenerated with id := 2, createdAt := 20 }

/-- The older GENERATED video of channel 1. -/
def vOlder : Video :=
  { sampleGenerated with id := 3, createdAt := 10 }

/-- Witness for the amended C6 (Scenario C): a channel with two GENERATED
videos gets exactly one upload job in a single run. -/
theorem C6_one_job_per_channel_witness :
    ((auto_upload_videos [chAuto] [vNewer, vOlder]).1.filter
        (fun v => v.channelId == chAuto.id)).length =
      if [vNewer, vOlder].any
          (fun v => v.channelId == chAuto.id && v.status == VideoStatus.generated)
      then 1 else 0 :=
  C6_one_job_per_channel [chAuto] [vNewer, vOlder] chAuto (by decide) (by decide) rfl rfl

/-- C6 counterexample: the claim names the oldest GENERATED video as the
one enqueued, but the query has no ordering — when the database returns the
newer row first, the newer video (created at tick 20) is enqueued even
though an older GENERATED video of the same channel (tick 10) exists. -/
theorem C6_counterexample :
    (auto_upload_videos [chAuto] [vNewer, vOlder]).1 = [vNewer] ∧
    vOlder.channelId = chAuto.id ∧ vOlder.status = VideoStatus.generated ∧
    vOlder.createdAt < vNewer.createdAt ∧ vNewer ≠ vOlder := by
  refine ⟨by decide, rfl, rfl, by decide, by decide⟩

/-- The `scriptMissing` test only reads the script column, so the initial
GENERATING commit of the generation task does not change it. -/
theorem scriptMissing_set_generating (v : Video) :
    scriptMissing { v with status := VideoStatus.generating, generationProgress := 0 } =
      scriptMissing v := rfl

/-- Shape of the rendering phase when the renderer raises: the commits are
the progress-callback commits followed by one FAILED commit built from the
last callback state (or the entry state when no callback fired); that state
keeps the entry row's video path and script. -/
theorem renderPhase_error_shape (u : Video) (ev : List (Nat × String)) (e : String) :
    ∃ uLast : Video,
      renderPhase u ev (Except.error e) =
        (ev.map (fun p => { u with generationProgress := p.1 }) ++
          [{ uLast with status := VideoStatus.failed, errorMessage := some e }],
         GenTaskResult.error (some u.id) e) ∧
      uLast.videoPath = u.videoPath := by
  cases hgl : ev.getLast? with
  | none => exact ⟨u, by simp [renderPhase, hgl], rfl⟩
  | some p => exact ⟨{ u with generationProgress := p.1 }, by simp [renderPhase, hgl], rfl⟩

/-- C3: whenever the generation job's script generation or rendering raises
an exception with message `e`, `generate_video_task` ends with the video
FAILED, the message persisted in `error_message`, the `video_path` column
still unset (given it was unset when the job started), and the structured
error result returned to the caller — the task is a total function into
result values, it re-raises nothing. -/
theorem C3_generation_failure_sets_failed (v : Video)
    (genScript : Except String String) (ev : List (Nat × String))
    (oc : Except String RenderResult) (e : String)
    (hpath : v.videoPath = none)
    (hfail : (scriptMissing v = true ∧ genScript = Except.error e) ∨
             (oc = Except.error e ∧
               (scriptMissing v = false ∨ (∃ s, genScript = Except.ok s)))) :
    (generate_video_task (some v) genScript ev oc).2 =
      GenTaskResult.error (some v.id) e ∧
    ∃ vf : Video, (generate_video_task (some v) genScript ev oc).1.getLast? = some vf ∧
      vf.status = VideoStatus.failed ∧ vf.errorMessage = some e ∧
      vf.videoPath = none := by
  rcases hfail with ⟨hsm, hgs⟩ | ⟨hoc, hrest⟩
  · subst hgs
    have hsm1 : scriptMissing
        { v with status := VideoStatus.generating, generationProgress := 0 } = true := hsm
    constructor
    · simp [generate_video_task, hsm1]
    · refine ⟨{ v with
          status := VideoStatus.failed,
          generationProgress := 0,
          errorMessage := some e }, ?_, rfl, rfl, hpath⟩
      simp [generate_video_task, hsm1]
  · subst hoc
    by_cases hsm : scriptMissing v
    · rcases hrest with hfalse | ⟨s, hgs⟩
      · rw [hsm] at hfalse
        cases hfalse
      · subst hgs
        have hsm1 : scriptMissing
            { v with status := VideoStatus.generating, generationProgress := 0 } = true := hsm
        obtain ⟨uL, hshape, hup⟩ := renderPhase_error_shape
          { v with
            status := VideoStatus.generating,
            generationProgress := 0,
            script := some s } ev e
        constructor
        · simp [generate_video_task, hsm1, hshape]
        · have hvf : ({ uL with status := VideoStatus.failed, errorMessage := some e } : Video).videoPath = uL.videoPath := rfl
          refine ⟨{ uL with status := VideoStatus.failed, errorMessage := some e },
            ?_, rfl, rfl, by rw [hvf, hup]; exact hpath⟩
          simp only [generate_video_task, hsm1, hshape, if_pos]
          rw [← List.cons_append, ← List.cons_append, List.getLast?_concat]
    · have hsm1 : scriptMissing
          { v with status := VideoStatus.generating, generationProgress := 0 } = false := by
        rw [scriptMissing_set_generating]
        exact Bool.eq_false_iff.mpr hsm
      obtain ⟨uL, hshape, hup⟩ := renderPhase_error_shape
        { v with status := VideoStatus.generating, generationProgress := 0 } ev e
      constructor
      · simp [generate_video_task, hsm1, hshape]
      · have hvf : ({ uL with status := VideoStatus.failed, errorMessage := some e } : Video).videoPath = uL.videoPath := rfl
        refine ⟨{ uL with status := VideoStatus.failed, errorMessage := some e },
          ?_, rfl, rfl, by rw [hvf, hup]; exact hpath⟩
        simp only [generate_video_task, hsm1, hshape, Bool.false_eq_true, if_neg,
          not_false_eq_true]
        rw [← List.cons_append, List.getLast?_concat]

/-- Every progress percentage the stub renderer reports is at most 100. -/
theorem stubSteps_le_100 : ∀ p ∈ stubSteps, p.1 ≤ 100 := by decide

/-- Invariant carried by every commit of the rendering phase, entered on a
GENERATING row with in-bounds progress and fed progress events drawn from
the renderer's reported steps: progress stays at most 100, and any commit
in GENERATED (or a later happy state) carries progress 100. -/
theorem renderPhase_commits_invariant (u : Video) (k : Nat)
    (oc : Except String RenderResult)
    (hu : u.status = VideoStatus.generating) (hup : u.generationProgress ≤ 100)
    (v' : Video) (hm : v' ∈ (renderPhase u (stubSteps.take k) oc).1) :
    v'.generationProgress ≤ 100 ∧
      ((v'.status = VideoStatus.generated ∨ v'.status = VideoStatus.uploading ∨
        v'.status = VideoStatus.uploaded) → v'.generationProgress = 100) := by
  have hstep : ∀ p ∈ stubSteps.take k, p.1 ≤ 100 := fun p hp =>
    stubSteps_le_100 p (List.take_subset k stubSteps hp)
  have hlastle : (match (stubSteps.take k).getLast? with
      | none => u
      | some p => { u with generationProgress := p.1 }).generationProgress ≤ 100 := by
    cases hgl : (stubSteps.take k).getLast? with
    | none => simpa using hup
    | some p =>
      have hmem := List.mem_of_getLast?_eq_some hgl
      simpa using hstep p hmem
  unfold renderPhase at hm
  cases oc with
  | ok r =>
    simp only [List.mem_append, List.mem_map, List.mem_singleton] at hm
    rcases hm with ⟨p, hp, rfl⟩ | rfl
    · refine ⟨hstep p hp, ?_⟩
      intro hh
      simp [hu] at hh
    · exact ⟨le_refl 100, fun _ => rfl⟩
  | error e =>
    simp only [List.mem_append, List.mem_map, List.mem_singleton] at hm
    rcases hm with ⟨p, hp, rfl⟩ | rfl
    · refine ⟨hstep p hp, ?_⟩
      intro hh
      simp [hu] at hh
    · refine ⟨hlastle, ?_⟩
      intro hh
      simp at hh

/-- C5 amended: at every point of the pipeline, `generation_progress` stays
within [0,100] (the lower bound holds by the `Nat` embedding: every value
the orchestrator writes is one of the literals 0, 100 or a renderer step),
and a video in GENERATED, UPLOADING or UPLOADED always carries progress
100. The converse direction of the claim's "if and only if" is false — see
the counterexample: a FAILED upload keeps progress 100. -/
theorem C5_progress_bounds (v : Video) (h : Reachable v) :
    v.generationProgress ≤ 100 ∧
      ((v.status = VideoStatus.generated ∨ v.status = VideoStatus.uploading ∨
        v.status = VideoStatus.uploaded) → v.generationProgress = 100) := by
  induction h with
  | created v hs hp =>
    refine ⟨by omega, ?_⟩
    intro hh
    simp [hs] at hh
  | api v h ih =>
    by_cases hg : v.status = VideoStatus.generating
    · simpa [generate_video_endpoint, hg] using ih
    · have hval : (generate_video_endpoint v).1 =
          { v with status := VideoStatus.generating, generationProgress := 0 } := by
        simp [generate_video_endpoint, hg]
      rw [hval]
      refine ⟨by exact Nat.zero_le 100, ?_⟩
      intro hh
      simp at hh
  | gen v v' gs ev oc h hev hm ih =>
    obtain ⟨k, rfl⟩ := hev
    by_cases hsm : scriptMissing
        { v with status := VideoStatus.generating, generationProgress := 0 } = true
    · cases gs with
      | error e =>
        simp only [generate_video_task, hsm, if_pos, List.mem_cons,
          List.mem_singleton, List.not_mem_nil, or_false] at hm
        rcases hm with rfl | rfl
        · refine ⟨by exact Nat.zero_le 100, ?_⟩
          intro hh
          simp at hh
        · refine ⟨by exact Nat.zero_le 100, ?_⟩
          intro hh
          simp at hh
      | ok s =>
        simp only [generate_video_task, hsm, if_pos, List.mem_cons] at hm
        rcases hm with rfl | rfl | hmem
        · refine ⟨by exact Nat.zero_le 100, ?_⟩
          intro hh
          simp at hh
        · refine ⟨by exact Nat.zero_le 100, ?_⟩
          intro hh
          simp at hh
        · exact renderPhase_commits_invariant _ k oc rfl (by exact Nat.zero_le 100) v' hmem
    · rw [Bool.not_eq_true] at hsm
      simp only [generate_video_task, hsm, Bool.false_eq_true, if_neg,
        not_false_eq_true, List.mem_cons] at hm
      rcases hm with rfl | hmem
      · refine ⟨by exact Nat.zero_le 100, ?_⟩
        intro hh
        simp at hh
      · exact renderPhase_commits_invariant _ k oc rfl (by exact Nat.zero_le 100) v' hmem
  | upload v v' pub h hm ih =>
    by_cases hgen : v.status = VideoStatus.generated
    · have h100 : v.generationProgress = 100 := ih.2 (Or.inl hgen)
      cases pub with
      | ok r =>
        simp only [upload_video_task, hgen, ne_eq, not_true_eq_false, if_neg,
          not_false_eq_true, List.mem_cons, List.mem_singleton,
          List.not_mem_nil, or_false] at hm
        rcases hm with rfl | rfl
        · exact ⟨by exact Nat.le_of_eq h100, fun _ => by exact h100⟩
        · exact ⟨by exact Nat.le_of_eq h100, fun _ => by exact h100⟩
      | error e =>
        simp only [upload_video_task, hgen, ne_eq, not_true_eq_false, if_neg,
          not_false_eq_true, List.mem_cons, List.mem_singleton,
          List.not_mem_nil, or_false] at hm
        rcases hm with rfl | rfl
        · exact ⟨by exact Nat.le_of_eq h100, fun _ => by exact h100⟩
        · refine ⟨by exact Nat.le_of_eq h100, ?_⟩
          intro hh
          simp at hh
    · simp [upload_video_task, hgen] at hm

/-- Witness for the amended C5 at a freshly created draft row. -/
theorem C5_progress_bounds_witness :
    sampleDraft.generationProgress ≤ 100 ∧
      ((sampleDraft.status = VideoStatus.generated ∨
        sampleDraft.status = VideoStatus.uploading ∨
        sampleDraft.status = VideoStatus.uploaded) →
        sampleDraft.generationProgress = 100) :=
  C5_progress_bounds sampleDraft (Reachable.created sampleDraft rfl rfl)

/-- The successful render outcome whose artifact paths produce
`sampleGenerated` from `sampleDraft`. -/
def c5Render : RenderResult :=
  { videoPath := "/app/storage/videos/video_1.mp4",
    thumbnailPath := "/app/storage/thumbnails/thumb_1.jpg",
    duration := 300, fileSize := 1024 }

/-- The row persisted after a successful generation whose upload then
fails: FAILED, yet still carrying progress 100. -/
def c5Failed : Video :=
  { sampleGenerated with
    status := VideoStatus.failed,
    errorMessage := some "Upload failed: network timeout" }

/-- C5 counterexample: the pipeline reaches a persisted row whose progress
is 100 but whose status is FAILED (generate succeeds — progress forced to
100 — then the upload raises, and the FAILED commit keeps the progress
column untouched), refuting the claim's "equals 100 only if GENERATED or
later" direction. -/
theorem C5_counterexample :
    Reachable c5Failed ∧ c5Failed.generationProgress = 100 ∧
    c5Failed.status = VideoStatus.failed ∧
    ¬(c5Failed.generationProgress = 100 ↔
      (c5Failed.status = VideoStatus.generated ∨
       c5Failed.status = VideoStatus.uploading ∨
       c5Failed.status = VideoStatus.uploaded)) := by
  have h0 : Reachable sampleDraft := Reachable.created sampleDraft rfl rfl
  have h1 : Reachable sampleGenerated :=
    Reachable.gen sampleDraft sampleGenerated (Except.ok "s") stubSteps
      (Except.ok c5Render) h0 ⟨7, rfl⟩ (by decide)
  have h2 : Reachable c5Failed :=
    Reachable.upload sampleGenerated c5Failed
      (Except.error "Upload failed: network timeout") h1 (by decide)
  exact ⟨h2, rfl, rfl, by decide⟩

/-- Witness for C3 (Scenario B): the renderer times out after two progress
callbacks on a draft row that already has a script; the job ends FAILED
with the timeout detail persisted and `video_path` unset. -/
theorem C3_generation_failure_sets_failed_witness :
    (generate_video_task (some sampleDraft) (Except.ok "unused") (stubSteps.take 2)
        (Except.error "Rendering timeout after 300 s")).2 =
      GenTaskResult.error (some 1) "Rendering timeout after 300 s" ∧
    ∃ vf : Video, (generate_video_task (some sampleDraft) (Except.ok "unused")
        (stubSteps.take 2) (Except.error "Rendering timeout after 300 s")).1.getLast? =
        some vf ∧
      vf.status = VideoStatus.failed ∧
      vf.errorMessage = some "Rendering timeout after 300 s" ∧
      vf.videoPath = none :=
  C3_generation_failure_sets_failed sampleDraft (Except.ok "unused") (stubSteps.take 2)
    (Except.error "Rendering timeout after 300 s") "Rendering timeout after 300 s" rfl
    (Or.inr ⟨rfl, Or.inl rfl⟩)

end YT
